import Mathlib

/-!
# Verification of the gestionMnew order/payment/stock/loyalty core

Shallow embedding of the data-layer logic of `gestionMold/api` (models.py,
signals.py, serializers.py, views.py).  Monetary `DecimalField` values with
two decimal places are represented exactly as integers of cents, so
`order.total = 30.00` is the integer `3000` and `int(total // 10)` (ten
currency units per loyalty point) is integer division by `1000`.
Database writes that Django's `full_clean` may reject are modelled with
`Except String`, the error string being the validation message raised by the
source; a returned `Except.error` means the transaction rolled back and no
row was persisted.  Timestamps are abstracted: `paid_at` is kept only as the
Boolean "is set", which is all the control flow of `Payment.save` inspects.
-/

namespace GestionM

/-- `Order.STATUS_CHOICES` from models.py. -/
inductive OrderStatus where
  | PENDING
  | EN_COURS
  | DELIVERED
  | CANCELLED
deriving DecidableEq, Repr

/-- `Payment.STATUS_CHOICES` from models.py. -/
inductive PaymentStatus where
  | PENDING
  | PAID
  | FAILED
deriving DecidableEq, Repr

/-- A `Payment` row: `amount` in cents, `payment_status`, and whether
`paid_at` has been stamped (the timestamp value itself is never branched
on by the source, only its presence). -/
structure Payment where
  amount : Int
  status : PaymentStatus
  paidAt : Bool
deriving DecidableEq, Repr

/-- An `OrderLine` row: product id, `quantity` (PositiveIntegerField) and
the snapshotted `unit_price` in cents. -/
structure OrderLine where
  product : Nat
  quantity : Nat
  unit_price : Int
deriving DecidableEq, Repr

/-- An `Order` row together with its related rows: its `OrderLine`s
(`lignes_commandes`), its `Payment`s (`payments`) and the number of
`PaymentLog` rows written for it. -/
structure Order where
  status : OrderStatus
  total : Int
  lines : List OrderLine
  payments : List Payment
  paymentLogs : Nat
deriving DecidableEq, Repr

/-- `sum(line.unit_price * line.quantity for line in self.lignes_commandes.all())`
from `Order.update_total`. -/
def linesTotal (ls : List OrderLine) : Int :=
  (ls.map (fun l => l.unit_price * (l.quantity : Int))).sum

/-- `self.order.payments.filter(payment_status='PAID').aggregate(sum=Sum('amount'))`:
the sum of the amounts of the PAID payments in a list. -/
def paidSum (ps : List Payment) : Int :=
  ((ps.filter (fun p => decide (p.status = PaymentStatus.PAID))).map (fun p => p.amount)).sum

/-- `Order.save`: runs `self.full_clean()` — field validation
(`MinValueValidator(0)` on `total`) followed by `Order.clean`, which rejects
an order without order lines (`not self.lignes_commandes.exists()`) — and
then persists the row. -/
def order_save (o : Order) : Except String Order :=
  if o.total < 0 then
    Except.error "Ensure this value is greater than or equal to 0."
  else if o.lines = [] then
    Except.error "Une commande doit contenir au moins une ligne de commande."
  else
    Except.ok o

/-- `Order.update_total`: recomputes `total` from the current lines and
saves (`self.save(update_fields=['total'])`, which re-runs `full_clean`). -/
def update_total (o : Order) : Except String Order :=
  order_save { o with total := linesTotal o.lines }

/-- `Order.update_status_if_paid`: aggregates the PAID amounts and, when they
cover `total` and the status is not already EN_COURS, saves the order with
status EN_COURS.  The only guard on the current status is `!= EN_COURS`. -/
def update_status_if_paid (o : Order) : Except String Order :=
  if paidSum o.payments ≥ o.total ∧ o.status ≠ OrderStatus.EN_COURS then
    order_save { o with status := OrderStatus.EN_COURS }
  else
    Except.ok o

/-- `OrderLine.save` for a freshly created line (`OrderLine.objects.create`):
`self.unit_price = self.product.selling_price` snapshots the product price
current at creation time, the row is inserted, and `self.order.update_total()`
re-derives the order total.  `sellingPrice` maps a product id to its current
`Product.selling_price` in cents. -/
def orderline_save (sellingPrice : Nat → Int) (o : Order) (pid quantity : Nat) :
    Except String Order :=
  update_total
    { o with lines := o.lines ++ [{ product := pid, quantity := quantity,
                                    unit_price := sellingPrice pid }] }

/-- `OrderWriteSerializer.create` (identical to `OrderSerializer.create`):
inside one transaction, `Order.objects.create(**validated_data)` first saves
the order — at which point it has no `OrderLine` yet — and then creates one
`OrderLine` per entry of `lines`.  Each entry is a (product id, quantity)
pair. -/
def create_order (sellingPrice : Nat → Int) (lineData : List (Nat × Nat)) :
    Except String Order := do
  let o ← order_save { status := OrderStatus.PENDING, total := 0, lines := [],
                       payments := [], paymentLogs := 0 }
  lineData.foldlM (fun acc ln => orderline_save sellingPrice acc ln.1 ln.2) o

/-- `Payment.full_clean` + `Payment.save` for a new payment row.
Field validation enforces `amount ≥ 0`; `Payment.clean` computes the PAID
total of the other payments of the order and rejects the payment when its
amount exceeds `order.total` minus that total.  On success the row and a
`PaymentLog` row are written inside one transaction; when the status is PAID,
`paid_at` is stamped and `order.update_status_if_paid()` runs (the
`post_save` signal `update_order_on_payment` triggers the same re-evaluation,
which is idempotent).  An error from that nested order save aborts the
transaction, so the caller's state is unchanged. -/
def record_payment (o : Order) (amount : Int) (pstatus : PaymentStatus) :
    Except String Order :=
  if amount < 0 then
    Except.error "Ensure this value is greater than or equal to 0."
  else if amount > o.total - paidSum o.payments then
    Except.error "Le montant du paiement depasse le total du pour cette commande."
  else
    let p : Payment := { amount := amount, status := pstatus,
                         paidAt := decide (pstatus = PaymentStatus.PAID) }
    let o1 : Order := { o with payments := o.payments ++ [p],
                               paymentLogs := o.paymentLogs + 1 }
    if pstatus = PaymentStatus.PAID then update_status_if_paid o1 else Except.ok o1

/-- `Payment.save` on an existing payment row (index `i`), re-saved without
field changes.  `Payment.clean` excludes the row itself (`exclude(pk=self.pk)`)
from the PAID total; a `PaymentLog` row is written; if the payment is PAID and
`paid_at` is not yet set, `paid_at` is stamped and `update_status_if_paid`
runs with errors propagating (transaction rollback); if it is PAID with
`paid_at` already set, `Payment.save` itself skips the re-evaluation but the
`post_save` signal `update_order_on_payment` still calls
`order.update_status_if_paid()`, catching and logging any exception. -/
def resave_payment (o : Order) (i : Nat) : Except String Order :=
  match o.payments[i]? with
  | none => Except.error "Payment matching query does not exist."
  | some p =>
    if p.amount < 0 then
      Except.error "Ensure this value is greater than or equal to 0."
    else if p.amount > o.total - paidSum (o.payments.eraseIdx i) then
      Except.error "Le montant du paiement depasse le total du pour cette commande."
    else
      let o1 : Order := { o with paymentLogs := o.paymentLogs + 1 }
      if p.status = PaymentStatus.PAID ∧ p.paidAt = false then
        update_status_if_paid { o1 with payments := o1.payments.set i { p with paidAt := true } }
      else if p.status = PaymentStatus.PAID then
        match update_status_if_paid o1 with
        | Except.ok o2 => Except.ok o2
        | Except.error _ => Except.ok o1
      else
        Except.ok o1

/-- One `record_payment` attempt with amount and status `op`; a failed
attempt persists nothing, so the state carries over unchanged. -/
def record_payment_step (o : Order) (op : Int × PaymentStatus) : Order :=
  match record_payment o op.1 op.2 with
  | Except.ok s2 => s2
  | Except.error _ => o

/-- A sequence of `record_payment` attempts on one order. -/
def run_payments (o : Order) (ops : List (Int × PaymentStatus)) : Order :=
  ops.foldl record_payment_step o

/-- The catalogue view needed for the price-change frame property: the
current `Product.selling_price` of every product (in cents) and the stored
orders.  `Product.save` writes only the product row. -/
structure Shop where
  sellingPrice : Nat → Int
  orders : List Order

/-- Changing `Product.selling_price` and saving the product: only the
product table is written; no `OrderLine` row is touched. -/
def product_set_selling_price (s : Shop) (pid : Nat) (price : Int) : Shop :=
  { s with sellingPrice := fun q => if q = pid then price else s.sellingPrice q }

/-- `StockMovement.MOVEMENT_CHOICES`. -/
inductive MovementType where
  | IN
  | OUT
  | ADJ
deriving DecidableEq, Repr

/-- A `StockMovement` row: product id, warehouse id, type and `quantity`
(PositiveIntegerField, so a natural number). -/
structure StockMovement where
  product : Nat
  warehouse : Nat
  movement_type : MovementType
  quantity : Nat
deriving DecidableEq, Repr

/-- The stock ledger: the append-only movement list and, for every
(product id, warehouse id) pair, the `StockLevel.quantity`.  A pair with no
`StockLevel` row is mapped to `0`, matching
`get_or_create(..., defaults={'quantity': 0})`. -/
structure StockState where
  movements : List StockMovement
  levels : Nat × Nat → Int

/-- The signed adjustment computed in `StockMovement.save`:
`ajustement = self.quantity`, negated for OUT, kept as-is for ADJ. -/
def adjustment (m : StockMovement) : Int :=
  match m.movement_type with
  | MovementType.OUT => -(m.quantity : Int)
  | MovementType.IN => (m.quantity : Int)
  | MovementType.ADJ => (m.quantity : Int)

/-- `StockMovement.save` for a new movement: the movement row is inserted
and the matching `StockLevel` is fetched or created with quantity 0 and
updated by `F('quantity') + ajustement`. -/
def stockmovement_save (s : StockState) (m : StockMovement) : StockState :=
  { movements := s.movements ++ [m],
    levels := fun k =>
      if k = (m.product, m.warehouse) then s.levels k + adjustment m else s.levels k }

/-- One entry of `LoyaltyProgram.transactions` (a JSON list in the source):
the optional order id, the points delta, and the optional reason.  The
`date` key is never branched on and is abstracted away. -/
structure LoyaltyTxn where
  order : Option Nat
  points : Int
  reason : Option String
deriving DecidableEq, Repr

/-- A `LoyaltyProgram` row: the `points` balance and the transaction log. -/
structure LoyaltyProgram where
  points : Int
  transactions : List LoyaltyTxn
deriving DecidableEq, Repr

/-- `LoyaltyProgram.add_points(order)`: `earned = int(order.total // 10)`
(on cents: division by 1000), an atomic `F('points') + earned` update, and a
transaction appended with the order id.  Returns the updated account and
`earned`.  `total` is the order total in cents. -/
def add_points (l : LoyaltyProgram) (orderId : Nat) (total : Int) :
    LoyaltyProgram × Int :=
  let earned := total / 1000
  ({ points := l.points + earned,
     transactions := l.transactions ++
       [{ order := some orderId, points := earned, reason := none }] },
   earned)

/-- The `post_save` signal `award_loyalty_points_on_delivery` applied to the
client's loyalty account: when the saved order has status DELIVERED and no
transaction of the log references the order id, `add_points` runs; any
transaction referencing the order id makes the call a no-op. -/
def award_loyalty_points_on_delivery (l : LoyaltyProgram) (orderId : Nat)
    (total : Int) (ostatus : OrderStatus) : LoyaltyProgram :=
  if ostatus = OrderStatus.DELIVERED then
    if l.transactions.any (fun t => decide (t.order = some orderId)) then l
    else (add_points l orderId total).1
  else l

/-- `LoyaltyProgram.use_points(points, reason, order)`: when the balance is
below `points` it raises `ValidationError("Pas assez de points.")` before any
mutation; otherwise it atomically decrements the balance by `points`, appends
a transaction with delta `-points`, and returns `points`. -/
def use_points (l : LoyaltyProgram) (points : Int) (reason : String)
    (orderId : Option Nat) : Except String (LoyaltyProgram × Int) :=
  if l.points < points then
    Except.error "Pas assez de points."
  else
    Except.ok
      ({ points := l.points - points,
         transactions := l.transactions ++
           [{ order := orderId, points := -points, reason := some reason }] },
       points)

/-- A pending order with one line (product 1, quantity 3, unit price
10.00) and total 30.00, used to instantiate the payment theorems. -/
def sampleOrder : Order :=
  { status := OrderStatus.PENDING, total := 3000,
    lines := [{ product := 1, quantity := 3, unit_price := 1000 }],
    payments := [], paymentLogs := 0 }

/-- `sampleOrder` after a successful PAID payment of 30.00. -/
def sampleOrderPaid : Order :=
  { status := OrderStatus.EN_COURS, total := 3000,
    lines := [{ product := 1, quantity := 3, unit_price := 1000 }],
    payments := [{ amount := 3000, status := PaymentStatus.PAID, paidAt := true }],
    paymentLogs := 1 }

/-- A fully paid, delivered order: total 30.00, one PAID payment of 30.00
with `paid_at` set. -/
def deliveredOrder : Order :=
  { status := OrderStatus.DELIVERED, total := 3000,
    lines := [{ product := 1, quantity := 3, unit_price := 1000 }],
    payments := [{ amount := 3000, status := PaymentStatus.PAID, paidAt := true }],
    paymentLogs := 1 }

/-- `deliveredOrder` with its status overwritten to EN_COURS and one more
payment log row: the state produced by re-saving its PAID payment. -/
def deliveredOrderReverted : Order :=
  { status := OrderStatus.EN_COURS, total := 3000,
    lines := [{ product := 1, quantity := 3, unit_price := 1000 }],
    payments := [{ amount := 3000, status := PaymentStatus.PAID, paidAt := true }],
    paymentLogs := 2 }

/-- `sampleOrderPaid` after one further zero-amount PAID payment. -/
def sampleOrderPaid2 : Order :=
  { status := OrderStatus.EN_COURS, total := 3000,
    lines := [{ product := 1, quantity := 3, unit_price := 1000 }],
    payments := [{ amount := 3000, status := PaymentStatus.PAID, paidAt := true },
                 { amount := 0, status := PaymentStatus.PAID, paidAt := true }],
    paymentLogs := 2 }

/-- `sampleOrderPaid` after re-saving its PAID payment (one more log row). -/
def sampleOrderPaidLog2 : Order :=
  { status := OrderStatus.EN_COURS, total := 3000,
    lines := [{ product := 1, quantity := 3, unit_price := 1000 }],
    payments := [{ amount := 3000, status := PaymentStatus.PAID, paidAt := true }],
    paymentLogs := 2 }

/-- A freshly constructed order with no lines yet. -/
def emptyOrder : Order :=
  { status := OrderStatus.PENDING, total := 0, lines := [], payments := [],
    paymentLogs := 0 }

/-- A catalogue in which every product currently sells for 10.00, holding
one stored order. -/
def sampleShop : Shop :=
  { sellingPrice := fun _ => 1000, orders := [sampleOrder] }

/-- A stock ledger with no movements and no stock level rows (every pair
reads as 0). -/
def emptyStock : StockState :=
  { movements := [], levels := fun _ => 0 }

/-- A loyalty account with no points and an empty transaction log. -/
def freshAccount : LoyaltyProgram :=
  { points := 0, transactions := [] }

/-- A loyalty account holding 10 points and an empty transaction log. -/
def richAccount : LoyaltyProgram :=
  { points := 10, transactions := [] }

/-- A loyalty account holding 3 points and an empty transaction log. -/
def poorAccount : LoyaltyProgram :=
  { points := 3, transactions := [] }

-- ===================================================================
-- Helper lemmas
-- ===================================================================

theorem paidSum_append (ps : List Payment) (p : Payment) :
    paidSum (ps ++ [p]) =
      paidSum ps + (if p.status = PaymentStatus.PAID then p.amount else 0) := by
  simp only [paidSum, List.filter_append, List.map_append, List.sum_append]
  by_cases h : p.status = PaymentStatus.PAID
  · simp [h]
  · simp [h]

theorem order_save_eq_ok {o o' : Order} (h : order_save o = Except.ok o') :
    o' = o := by
  unfold order_save at h
  split at h
  · exact absurd h (by simp)
  · split at h
    · exact absurd h (by simp)
    · exact (Except.ok.injEq _ _ ▸ congrArg id h).symm

theorem order_save_ok (o : Order) (h1 : 0 ≤ o.total) (h2 : o.lines ≠ []) :
    order_save o = Except.ok o := by
  unfold order_save
  rw [if_neg (by omega), if_neg h2]

theorem update_status_if_paid_cases {o o' : Order}
    (h : update_status_if_paid o = Except.ok o') :
    o' = o ∨ o' = { o with status := OrderStatus.EN_COURS } := by
  unfold update_status_if_paid at h
  split at h
  · exact Or.inr (order_save_eq_ok h)
  · refine Or.inl ?_
    injection h with h2
    exact h2.symm

theorem update_status_if_paid_of_encours {o : Order}
    (h : o.status = OrderStatus.EN_COURS) :
    update_status_if_paid o = Except.ok o := by
  unfold update_status_if_paid
  rw [if_neg]
  simp [h]

theorem record_payment_ok_spec {o o' : Order} {a : Int} {st : PaymentStatus}
    (h : record_payment o a st = Except.ok o') :
    0 ≤ a ∧ a ≤ o.total - paidSum o.payments ∧ o'.total = o.total ∧
    o'.lines = o.lines ∧
    paidSum o'.payments =
      paidSum o.payments + (if st = PaymentStatus.PAID then a else 0) ∧
    (o'.status = o.status ∨ o'.status = OrderStatus.EN_COURS) := by
  simp only [record_payment] at h
  split at h
  · exact Except.noConfusion h
  next hneg =>
  split at h
  · exact Except.noConfusion h
  next hgt =>
  split at h
  next hst =>
    rcases update_status_if_paid_cases h with h' | h' <;>
      subst h' <;>
      refine ⟨by omega, by omega, rfl, rfl, ?_, ?_⟩ <;>
      simp [paidSum_append, hst]
  next hst =>
    injection h with h'
    subst h'
    refine ⟨by omega, by omega, rfl, rfl, ?_, Or.inl rfl⟩
    simp [paidSum_append, hst]

theorem record_payment_step_inv {o : Order} (op : Int × PaymentStatus)
    (h : paidSum o.payments ≤ o.total) :
    paidSum (record_payment_step o op).payments ≤ o.total ∧
    (record_payment_step o op).total = o.total := by
  unfold record_payment_step
  cases hrec : record_payment o op.1 op.2 with
  | error e => exact ⟨h, rfl⟩
  | ok o' =>
    obtain ⟨h0, hle, htot, -, hpaid, -⟩ := record_payment_ok_spec hrec
    constructor
    · rw [hpaid]
      split <;> omega
    · exact htot

theorem run_payments_inv (ops : List (Int × PaymentStatus)) (o : Order)
    (h : paidSum o.payments ≤ o.total) :
    paidSum (run_payments o ops).payments ≤ o.total ∧
    (run_payments o ops).total = o.total := by
  induction ops generalizing o with
  | nil => exact ⟨h, rfl⟩
  | cons op ops ih =>
    obtain ⟨h1, h2⟩ := record_payment_step_inv op h
    have := ih (record_payment_step o op) (by omega)
    simpa [run_payments, List.foldl_cons, h2] using this

theorem record_paid_covers_encours {o o' : Order} {a : Int}
    (hrec : record_payment o a PaymentStatus.PAID = Except.ok o')
    (hcov : o.total ≤ paidSum o'.payments) :
    o'.status = OrderStatus.EN_COURS := by
  simp only [record_payment] at hrec
  split at hrec
  · exact Except.noConfusion hrec
  split at hrec
  · exact Except.noConfusion hrec
  split at hrec
  case isFalse hst => exact absurd (by trivial) hst
  simp only [update_status_if_paid] at hrec
  split at hrec
  next hcond =>
    have h' := order_save_eq_ok hrec
    subst h'
    rfl
  next hcond =>
    injection hrec with h'
    subst h'
    rcases not_and_or.mp hcond with hA | hB
    · exact absurd (by simpa [paidSum_append] using hcov) hA
    · simpa using not_not.mp hB

theorem record_payment_preserves_encours {o o' : Order} {a : Int}
    {st : PaymentStatus}
    (h : o.status = OrderStatus.EN_COURS)
    (hrec : record_payment o a st = Except.ok o') :
    o'.status = OrderStatus.EN_COURS := by
  rcases (record_payment_ok_spec hrec).2.2.2.2.2 with h' | h'
  · rw [h', h]
  · exact h'

theorem resave_payment_ok_status {o o' : Order} {i : Nat}
    (h : resave_payment o i = Except.ok o') :
    o'.status = o.status ∨ o'.status = OrderStatus.EN_COURS := by
  simp only [resave_payment] at h
  split at h
  · exact Except.noConfusion h
  next p hp =>
  split at h
  · exact Except.noConfusion h
  split at h
  · exact Except.noConfusion h
  split at h
  next hpaid =>
    rcases update_status_if_paid_cases h with h' | h' <;> subst h'
    · exact Or.inl rfl
    · exact Or.inr rfl
  next hpaid =>
  split at h
  next hpaid2 =>
    split at h
    next o2 hupd =>
      injection h with h'
      subst h'
      rcases update_status_if_paid_cases hupd with h' | h' <;> subst h'
      · exact Or.inl rfl
      · exact Or.inr rfl
    next hupd =>
      injection h with h'
      subst h'
      exact Or.inl rfl
  next hpaid2 =>
    injection h with h'
    subst h'
    exact Or.inl rfl

-- ===================================================================
-- Claim theorems
-- ===================================================================

/-- C1: a payment attempt whose amount exceeds `order.total` minus the sum
of existing PAID payments fails with the `ValidationError` raised by
`Payment.clean` — the `Except.error` result means the transaction aborted
before any `Payment` or `PaymentLog` row was written and before any order
field changed — and along every sequence of recorded payments the sum of
PAID amounts never exceeds `order.total` (which itself never changes). -/
theorem record_payment_overpay_rejected (o : Order) (a : Int)
    (st : PaymentStatus) (ops : List (Int × PaymentStatus))
    (hinv : paidSum o.payments ≤ o.total)
    (hover : o.total - paidSum o.payments < a) :
    record_payment o a st =
      Except.error "Le montant du paiement depasse le total du pour cette commande." ∧
    paidSum (run_payments o ops).payments ≤ o.total ∧
    (run_payments o ops).total = o.total := by
  refine ⟨?_, (run_payments_inv ops o hinv).1, (run_payments_inv ops o hinv).2⟩
  unfold record_payment
  rw [if_neg (by omega), if_pos (by omega)]

theorem record_payment_overpay_rejected_witness :
    record_payment sampleOrder 5000 PaymentStatus.PAID =
      Except.error "Le montant du paiement depasse le total du pour cette commande." ∧
    paidSum (run_payments sampleOrder
      [(2000, PaymentStatus.PAID), (2000, PaymentStatus.PAID)]).payments ≤
      sampleOrder.total ∧
    (run_payments sampleOrder
      [(2000, PaymentStatus.PAID), (2000, PaymentStatus.PAID)]).total =
      sampleOrder.total :=
  record_payment_overpay_rejected sampleOrder 5000 PaymentStatus.PAID
    [(2000, PaymentStatus.PAID), (2000, PaymentStatus.PAID)]
    (by decide) (by decide)

/-- C2: the PAID payment that first makes the cumulative PAID amount reach
`order.total` moves the order to EN_COURS, and the transition is not
re-triggered: re-evaluating the status is then the identity (no further
save of the order), and both recording further payments and re-saving the
already-paid payment leave the status at EN_COURS. -/
theorem payment_completion_fires_once (o o' o2 o3 : Order) (a a2 : Int)
    (st2 : PaymentStatus) (i : Nat)
    (_hpend : o.status = OrderStatus.PENDING)
    (hrec : record_payment o a PaymentStatus.PAID = Except.ok o')
    (hcov : o.total ≤ paidSum o'.payments)
    (hrec2 : record_payment o' a2 st2 = Except.ok o2)
    (hres : resave_payment o' i = Except.ok o3) :
    o'.status = OrderStatus.EN_COURS ∧
    update_status_if_paid o' = Except.ok o' ∧
    o2.status = OrderStatus.EN_COURS ∧
    o3.status = OrderStatus.EN_COURS := by
  have h1 := record_paid_covers_encours hrec hcov
  refine ⟨h1, update_status_if_paid_of_encours h1,
    record_payment_preserves_encours h1 hrec2, ?_⟩
  rcases resave_payment_ok_status hres with h' | h'
  · rw [h', h1]
  · exact h'

theorem payment_completion_fires_once_witness :
    sampleOrderPaid.status = OrderStatus.EN_COURS ∧
    update_status_if_paid sampleOrderPaid = Except.ok sampleOrderPaid ∧
    sampleOrderPaid2.status = OrderStatus.EN_COURS ∧
    sampleOrderPaidLog2.status = OrderStatus.EN_COURS :=
  payment_completion_fires_once sampleOrder sampleOrderPaid sampleOrderPaid2
    sampleOrderPaidLog2 3000 0 PaymentStatus.PAID 0
    rfl rfl (by decide) rfl rfl

/-- C3: the code moves a DELIVERED order back to EN_COURS.  Re-saving the
(unchanged) PAID payment of a fully paid DELIVERED order triggers the
`post_save` signal, whose `update_status_if_paid` call only guards against
the status already being EN_COURS, so the DELIVERED status is overwritten
with EN_COURS — the claimed terminality of DELIVERED/CANCELLED does not
hold in the code. -/
theorem resave_payment_reverts_delivered :
    resave_payment deliveredOrder 0 = Except.ok deliveredOrderReverted ∧
    deliveredOrderReverted.status ≠ OrderStatus.DELIVERED :=
  ⟨rfl, by decide⟩

/-- C4: delivery-time accrual on an order not yet referenced in the
transaction log awards exactly `int(total // 10)` points (on cents:
`total / 1000`) and appends exactly one transaction referencing the order;
running the accrual again for the same order is a no-op. -/
theorem accrue_on_delivery_correct (l : LoyaltyProgram) (oid : Nat)
    (total : Int) (_htot : 0 ≤ total)
    (hnew : l.transactions.any (fun t => decide (t.order = some oid)) = false) :
    award_loyalty_points_on_delivery l oid total OrderStatus.DELIVERED =
      { points := l.points + total / 1000,
        transactions := l.transactions ++
          [{ order := some oid, points := total / 1000, reason := none }] } ∧
    award_loyalty_points_on_delivery
        (award_loyalty_points_on_delivery l oid total OrderStatus.DELIVERED)
        oid total OrderStatus.DELIVERED =
      award_loyalty_points_on_delivery l oid total OrderStatus.DELIVERED := by
  have h1 : award_loyalty_points_on_delivery l oid total OrderStatus.DELIVERED =
      { points := l.points + total / 1000,
        transactions := l.transactions ++
          [{ order := some oid, points := total / 1000, reason := none }] } := by
    unfold award_loyalty_points_on_delivery add_points
    rw [if_pos rfl, if_neg (by simp [hnew])]
  refine ⟨h1, ?_⟩
  rw [h1]
  unfold award_loyalty_points_on_delivery
  rw [if_pos rfl, if_pos (by simp [List.any_append])]

theorem accrue_on_delivery_correct_witness :
    (award_loyalty_points_on_delivery freshAccount 7 4500 OrderStatus.DELIVERED =
      { points := freshAccount.points + 4500 / 1000,
        transactions := freshAccount.transactions ++
          [{ order := some 7, points := 4500 / 1000, reason := none }] } ∧
    award_loyalty_points_on_delivery
        (award_loyalty_points_on_delivery freshAccount 7 4500 OrderStatus.DELIVERED)
        7 4500 OrderStatus.DELIVERED =
      award_loyalty_points_on_delivery freshAccount 7 4500 OrderStatus.DELIVERED) ∧
    (award_loyalty_points_on_delivery freshAccount 7 4500 OrderStatus.DELIVERED).points = 4 :=
  ⟨accrue_on_delivery_correct freshAccount 7 4500 (by decide) (by decide), by decide⟩

/-- C5 counterexample: `use_points` with `points = 0` (which the claim says
must fail with InsufficientPoints) succeeds on an account holding 5 points,
appending a zero-delta transaction — the source only checks
`self.points < points`, so the lower bound `points > 0` is not enforced. -/
theorem use_points_zero_succeeds :
    use_points { points := 5, transactions := [] } 0 "Utilisation" none =
      Except.ok ({ points := 5,
                   transactions := [{ order := none, points := 0,
                                      reason := some "Utilisation" }] }, 0) := rfl

/-- C5 (amended): `use_points` succeeds whenever `points ≤ account.points`
— in particular for every `0 < points ≤ account.points` — decrementing the
balance by exactly `points`, appending a `-points` delta transaction and
returning `points`; it fails with the InsufficientPoints validation error,
mutating nothing, exactly when `points > account.points`.  The lower bound
`points > 0` of the claim is not checked by the code. -/
theorem use_points_correct (l l2 : LoyaltyProgram) (p p2 : Int)
    (r r2 : String) (oid oid2 : Option Nat)
    (hle : p ≤ l.points) (hgt : l2.points < p2) :
    use_points l p r oid =
      Except.ok ({ points := l.points - p,
                   transactions := l.transactions ++
                     [{ order := oid, points := -p, reason := some r }] }, p) ∧
    use_points l2 p2 r2 oid2 = Except.error "Pas assez de points." := by
  constructor
  · unfold use_points
    rw [if_neg (by omega)]
  · unfold use_points
    rw [if_pos hgt]

theorem use_points_correct_witness :
    use_points richAccount 4 "Utilisation" none =
      Except.ok ({ points := richAccount.points - 4,
                   transactions := richAccount.transactions ++
                     [{ order := none, points := -4, reason := some "Utilisation" }] }, 4) ∧
    use_points poorAccount 5 "Utilisation" none =
      Except.error "Pas assez de points." :=
  use_points_correct richAccount poorAccount 4 5 "Utilisation" "Utilisation"
    none none (by decide) (by decide)

/-- C10: a points redemption that references an order suppresses the later
delivery-time accrual for that order: after `use_points` appended its
negative-delta transaction carrying the order id, the accrual scan finds a
transaction referencing the order and does nothing, although no positive
accrual for that order was ever made. -/
theorem redemption_blocks_accrual (l l' : LoyaltyProgram) (oid : Nat)
    (p total : Int) (r : String)
    (_hnew : l.transactions.any (fun t => decide (t.order = some oid)) = false)
    (hok : use_points l p r (some oid) = Except.ok (l', p)) :
    award_loyalty_points_on_delivery l' oid total OrderStatus.DELIVERED = l' := by
  unfold use_points at hok
  split at hok
  · exact Except.noConfusion hok
  · injection hok with h'
    obtain ⟨h1, -⟩ := Prod.mk.injEq .. |>.mp h'
    subst h1
    unfold award_loyalty_points_on_delivery
    rw [if_pos rfl, if_pos (by simp [List.any_append])]

theorem redemption_blocks_accrual_witness :
    award_loyalty_points_on_delivery
      { points := 6,
        transactions := [{ order := some 7, points := -4,
                           reason := some "Utilisation" }] }
      7 4500 OrderStatus.DELIVERED =
      { points := 6,
        transactions := [{ order := some 7, points := -4,
                           reason := some "Utilisation" }] } :=
  redemption_blocks_accrual richAccount
    { points := 6,
      transactions := [{ order := some 7, points := -4,
                         reason := some "Utilisation" }] }
    7 4 4500 "Utilisation" (by decide) rfl

/-- C6: the code can never create an order through the serializer.
`Order.objects.create(**validated_data)` runs `Order.save`, hence
`full_clean`, before any `OrderLine` of the request exists, and
`Order.clean` rejects an order without lines — so `create_order` fails for
every input, including well-formed non-empty line lists, instead of
returning an order whose total is the sum of its lines. -/
theorem create_order_never_succeeds (sellingPrice : Nat → Int)
    (lineData : List (Nat × Nat)) :
    create_order sellingPrice lineData =
      Except.error "Une commande doit contenir au moins une ligne de commande." := rfl

/-- C7: applying a movement to a (product, warehouse) pair reads the pair's
stock level (0 for a fresh pair) and changes it by `+q` for IN, `-q` for
OUT and `+q` for ADJ; on a fresh pair, IN of `q1` followed by OUT of `q2`
yields level `q1 - q2`. -/
theorem stock_movement_correct (s : StockState) (p w q q1 q2 : Nat)
    (hfresh : s.levels (p, w) = 0) (_hle : q2 ≤ q1) :
    (stockmovement_save s ⟨p, w, MovementType.IN, q⟩).levels (p, w) =
      s.levels (p, w) + q ∧
    (stockmovement_save s ⟨p, w, MovementType.OUT, q⟩).levels (p, w) =
      s.levels (p, w) - q ∧
    (stockmovement_save s ⟨p, w, MovementType.ADJ, q⟩).levels (p, w) =
      s.levels (p, w) + q ∧
    (stockmovement_save (stockmovement_save s ⟨p, w, MovementType.IN, q1⟩)
        ⟨p, w, MovementType.OUT, q2⟩).levels (p, w) =
      (q1 : Int) - (q2 : Int) := by
  refine ⟨?_, ?_, ?_, ?_⟩ <;>
    simp [stockmovement_save, adjustment, hfresh, sub_eq_add_neg]

theorem stock_movement_correct_witness :
    (stockmovement_save emptyStock ⟨1, 1, MovementType.IN, 5⟩).levels (1, 1) =
      emptyStock.levels (1, 1) + 5 ∧
    (stockmovement_save emptyStock ⟨1, 1, MovementType.OUT, 5⟩).levels (1, 1) =
      emptyStock.levels (1, 1) - 5 ∧
    (stockmovement_save emptyStock ⟨1, 1, MovementType.ADJ, 5⟩).levels (1, 1) =
      emptyStock.levels (1, 1) + 5 ∧
    (stockmovement_save (stockmovement_save emptyStock ⟨1, 1, MovementType.IN, 10⟩)
        ⟨1, 1, MovementType.OUT, 4⟩).levels (1, 1) = (10 : Int) - (4 : Int) :=
  stock_movement_correct emptyStock 1 1 5 10 4 rfl (by decide)

/-- C8: `update_total` re-derives `total` as the sum of
`unit_price * quantity` over the lines and saves it, and it is idempotent:
on the re-derived state the same call saves the identical total again. -/
theorem update_total_correct (o : Order) (hl : o.lines ≠ [])
    (hnn : 0 ≤ linesTotal o.lines) :
    update_total o = Except.ok { o with total := linesTotal o.lines } ∧
    update_total { o with total := linesTotal o.lines } =
      Except.ok { o with total := linesTotal o.lines } := by
  constructor
  · exact order_save_ok _ hnn hl
  · exact order_save_ok _ hnn hl

theorem update_total_correct_witness :
    update_total sampleOrder =
      Except.ok { sampleOrder with total := linesTotal sampleOrder.lines } ∧
    update_total { sampleOrder with total := linesTotal sampleOrder.lines } =
      Except.ok { sampleOrder with total := linesTotal sampleOrder.lines } :=
  update_total_correct sampleOrder (by decide) (by decide)

/-- C9: a newly created `OrderLine` snapshots the product's current
`selling_price` into `unit_price`, and saving a `Product` with a changed
`selling_price` writes only the product row: every stored order — hence
every existing line's `unit_price` and every existing total — is left
unchanged. -/
theorem price_change_frame (s : Shop) (o o' : Order) (pid q : Nat)
    (newPrice : Int)
    (hsave : orderline_save s.sellingPrice o pid q = Except.ok o') :
    o'.lines = o.lines ++ [{ product := pid, quantity := q,
                             unit_price := s.sellingPrice pid }] ∧
    (product_set_selling_price s pid newPrice).orders = s.orders := by
  constructor
  · unfold orderline_save update_total at hsave
    have h' := order_save_eq_ok hsave
    subst h'
    rfl
  · rfl

theorem price_change_frame_witness :
    sampleOrder.lines = emptyOrder.lines ++
      [{ product := 1, quantity := 3, unit_price := sampleShop.sellingPrice 1 }] ∧
    (product_set_selling_price sampleShop 1 2000).orders = sampleShop.orders :=
  price_change_frame sampleShop emptyOrder sampleOrder 1 3 2000 rfl

end GestionM
